import Mathlib

/-!
Verification development for the eToro portfolio extractor.

The development shallowly embeds the extraction core of the repository:

* `src/etoro_extractor/config.py` — profile-URL construction (`Config.get_profile_url`);
* `src/etoro_extractor/scraper.py` — browser-setup fallback chain (`_setup_driver`),
  the top-level extraction entry point (`get_portfolio_data`), the page-level
  extraction (`_extract_portfolio_from_page`) and the per-row field extraction
  (`_extract_etoro_asset_info`).

HTML documents parsed by BeautifulSoup are modelled as a node tree, and the
CSS-selector fragments the scraper uses (class selectors, attribute selectors,
descendant chains) are modelled by a small selector engine.  Interactions with
the live WebDriver (navigation, page-source access, current-URL access) can
raise exceptions at run time; they are modelled by explicit `Except`-valued
oracles so that every exception path of the Python code is visible in the
embedding.

String manipulation is implemented over `List Char` (with explicit fuel where
Python iterates by index) so that every definition evaluates inside the kernel.
-/

namespace EToro

/-! ### String utilities

Models of the Python string operations used by the scraper: `in` (substring
containment), `str.split`, `str.strip`, `str.replace`, `str.lower`, and the
whitespace splitting BeautifulSoup applies to the `class` attribute. -/

/-- Substring containment over char lists: `containsL pat s` is true iff `pat`
occurs contiguously in `s` (model of Python `pat in s`). -/
def containsL : List Char → List Char → Bool
  | pat, [] => pat.isEmpty
  | pat, c :: rest => pat.isPrefixOf (c :: rest) || containsL pat rest

/-- Model of Python `pat in s` on strings. -/
def strContainsSub (s pat : String) : Bool := containsL pat.data s.data

/-- Fuel-driven splitter underlying `strSplitOn`; the fuel is the length of the
input, which is enough for the scan to finish. -/
def splitOnFuel (sep : List Char) : Nat → List Char → List Char → List (List Char)
  | _, [], acc => [acc.reverse]
  | 0, s, acc => [acc.reverse ++ s]
  | fuel + 1, c :: rest, acc =>
    if sep.isPrefixOf (c :: rest) && !sep.isEmpty then
      acc.reverse :: splitOnFuel sep fuel ((c :: rest).drop sep.length) []
    else
      splitOnFuel sep fuel rest (c :: acc)

/-- Model of Python `s.split(sep)` for a non-empty separator: non-overlapping,
left-to-right, empty pieces kept. -/
def strSplitOn (s sep : String) : List String :=
  (splitOnFuel sep.data s.data.length s.data []).map (fun l => ⟨l⟩)

/-- Strip leading and trailing whitespace from a char list. -/
def trimL (l : List Char) : List Char :=
  ((l.dropWhile Char.isWhitespace).reverse.dropWhile Char.isWhitespace).reverse

/-- Model of Python `s.strip()`. -/
def strTrim (s : String) : String := ⟨trimL s.data⟩

/-- Fuel-driven replacement scan underlying `strReplace`. -/
def replaceFuel (pat rep : List Char) : Nat → List Char → List Char
  | _, [] => []
  | 0, s => s
  | fuel + 1, c :: rest =>
    if pat.isPrefixOf (c :: rest) && !pat.isEmpty then
      rep ++ replaceFuel pat rep fuel ((c :: rest).drop pat.length)
    else
      c :: replaceFuel pat rep fuel rest

/-- Model of Python `s.replace(pat, rep)`: every non-overlapping occurrence,
scanning left to right. -/
def strReplace (s pat rep : String) : String :=
  ⟨replaceFuel pat.data rep.data s.data.length s.data⟩

/-- Model of Python `s.lower()` (ASCII case folding suffices for the markers
the scraper checks). -/
def strToLower (s : String) : String := ⟨s.data.map Char.toLower⟩

/-- Split a char list at whitespace, dropping empty pieces. -/
def wordsAux : List Char → List Char → List (List Char)
  | [], acc => if acc.isEmpty then [] else [acc.reverse]
  | c :: rest, acc =>
    if c.isWhitespace then
      (if acc.isEmpty then wordsAux rest [] else acc.reverse :: wordsAux rest [])
    else wordsAux rest (c :: acc)

/-- Whitespace splitting as BeautifulSoup applies it to multi-valued
attributes such as `class` (Python `s.split()`). -/
def strWords (s : String) : List String := (wordsAux s.data []).map (fun l => ⟨l⟩)

/-! ### DOM model

A parsed HTML document is a tree of element and text nodes; an element carries
its tag name, its attribute list and its children in document order. -/

/-- A node of the parsed document (model of a BeautifulSoup tag or string). -/
inductive Node where
  | text : String → Node
  | elem : String → List (String × String) → List Node → Node

mutual
/-- Structural equality of nodes (used to model BeautifulSoup `find_parent`,
which walks from a located element back to its parent). -/
def nodeBeq : Node → Node → Bool
  | .text s, .text t => s == t
  | .elem t1 a1 c1, .elem t2 a2 c2 => t1 == t2 && a1 == a2 && nodesBeq c1 c2
  | .text _, .elem _ _ _ => false
  | .elem _ _ _, .text _ => false
/-- Structural equality of node lists. -/
def nodesBeq : List Node → List Node → Bool
  | [], [] => true
  | a :: as, b :: bs => nodeBeq a b && nodesBeq as bs
  | [], _ :: _ => false
  | _ :: _, [] => false
end

instance : BEq Node := ⟨nodeBeq⟩

/-- Attribute lookup on an attribute list (model of `tag.get(key)` /
`tag[key]`). -/
def attrVal (attrs : List (String × String)) (k : String) : Option String :=
  match attrs.find? (fun p => p.1 == k) with
  | some p => some p.2
  | none => none

/-- The attribute list of a node (text nodes have none). -/
def Node.attrList : Node → List (String × String)
  | .text _ => []
  | .elem _ a _ => a

/-- The class list of a node: the `class` attribute split at whitespace
(model of BeautifulSoup `tag.get("class", [])`). -/
def Node.classList (n : Node) : List String :=
  strWords ((attrVal n.attrList "class").getD "")

mutual
/-- All text pieces of a subtree in document order (model of the strings
joined by `get_text`). -/
def textPieces : Node → List String
  | .text s => [s]
  | .elem _ _ cs => textPiecesList cs
/-- Text pieces of a forest in document order. -/
def textPiecesList : List Node → List String
  | [] => []
  | c :: cs => textPieces c ++ textPiecesList cs
end

/-- Model of BeautifulSoup `get_text(strip=True)`: each text piece stripped of
surrounding whitespace, then concatenated. -/
def getTextStrip (n : Node) : String :=
  ⟨((textPieces n).map (fun s => trimL s.data)).foldr (fun a b => a ++ b) []⟩

/-! ### CSS selector engine

The scraper only uses simple selectors — an optional tag name, a conjunction
of classes, a conjunction of attribute tests — combined at most once by the
descendant combinator (`"[sub-head] .et-color-dark-grey"`).  A selector is a
chain of simple selectors; a node matches the chain when the chain's heads
match successive strict ancestors and the last component matches the node. -/

/-- One simple selector: optional tag name, required classes, required
attribute tests (`none` = attribute present with any value). -/
structure SimpleSel where
  tag : Option String
  classes : List String
  attrs : List (String × Option String)

/-- Does a node match one simple selector?  Text nodes never match. -/
def matchesSimple (s : SimpleSel) (n : Node) : Bool :=
  match n with
  | .text _ => false
  | .elem tag attrs _ =>
    (match s.tag with | none => true | some t => t == tag) &&
    s.classes.all (fun c => (strWords ((attrVal attrs "class").getD "")).contains c) &&
    s.attrs.all (fun p =>
      match attrVal attrs p.1 with
      | none => false
      | some v => match p.2 with | none => true | some w => v == w)

mutual
/-- Walk a subtree collecting, in document order, the nodes at which some
pending selector chain is fully consumed.  `pending` holds the chain suffixes
that may start matching at this node or below (descendant-combinator
semantics: a suffix stays live for all deeper nodes). -/
def collectSel (pending : List (List SimpleSel)) (n : Node) : List Node :=
  match n with
  | .text _ => []
  | .elem _ _ children =>
    let hit := pending.any (fun p =>
      match p with
      | [s] => matchesSimple s n
      | _ => false)
    let extra := pending.filterMap (fun p =>
      match p with
      | s :: rest => if matchesSimple s n && !rest.isEmpty then some rest else none
      | [] => none)
    (if hit then [n] else []) ++ collectSelList (pending ++ extra) children
/-- `collectSel` over a forest, concatenating in document order. -/
def collectSelList (pending : List (List SimpleSel)) (ns : List Node) : List Node :=
  match ns with
  | [] => []
  | c :: cs => collectSel pending c ++ collectSelList pending cs
end

/-- Model of BeautifulSoup `element.select(sel)`: all matching descendants of
the element (the element itself excluded), in document order. -/
def Node.select (n : Node) (sel : List SimpleSel) : List Node :=
  match n with
  | .text _ => []
  | .elem _ _ children => collectSelList [sel] children

/-- Model of BeautifulSoup `element.select_one(sel)`: the first matching
descendant in document order, if any. -/
def Node.selectFirst (n : Node) (sel : List SimpleSel) : Option Node :=
  (n.select sel).head?

mutual
/-- Model of BeautifulSoup `element.find_parent()`: the first node (in
document order from the given root) whose direct children contain the target
element. -/
def findParent (target : Node) : Node → Option Node
  | .text _ => none
  | .elem t a cs =>
    if cs.any (fun c => nodeBeq c target) then some (.elem t a cs)
    else findParentList target cs
/-- `findParent` over a forest. -/
def findParentList (target : Node) : List Node → Option Node
  | [] => none
  | c :: cs =>
    match findParent target c with
    | some p => some p
    | none => findParentList target cs
end

/-! ### Configuration (`config.py`)

`Config.__init__` fixes `etoro_base_url = "https://www.etoro.com"` and the
template `etoro_public_profile_url = f"{self.etoro_base_url}/people/{{username}}"`;
`get_profile_url` instantiates the template with `.format(username=username)`.
Since the template is the fixed string `<base>/people/{username}` with a single
field, formatting it inserts the username verbatim after `<base>/people/`. -/

/-- The fixed base URL from `Config.__init__`. -/
def etoro_base_url : String := "https://www.etoro.com"

/-- Model of `Config.get_profile_url`: the profile-URL template
`<base>/people/{username}` instantiated with the given username. -/
def get_profile_url (username : String) : String :=
  etoro_base_url ++ "/people/" ++ username

/-! ### Selectors used by the scraper (`scraper.py`)

Each definition transcribes one CSS selector string appearing in
`_extract_portfolio_from_page` or `_extract_etoro_asset_info`. -/

/-- `[automation-id='cd-public-portfolio-table-item-title']` (asset name,
primary). -/
def nameSel : List SimpleSel :=
  [⟨none, [], [("automation-id", some "cd-public-portfolio-table-item-title")]⟩]

/-- `.et-bold-font.ellipsis` (asset name, fallback). -/
def nameFallbackSel : List SimpleSel := [⟨none, ["et-bold-font", "ellipsis"], []⟩]

/-- `.et-color-dark-grey.ellipsis` (description). -/
def descSel : List SimpleSel := [⟨none, ["et-color-dark-grey", "ellipsis"], []⟩]

/-- `.et-table-cell` (data cells of a row). -/
def cellSel : List SimpleSel := [⟨none, ["et-table-cell"], []⟩]

/-- `.et-font-weight-normal` (value inside a data cell). -/
def fontWeightNormalSel : List SimpleSel := [⟨none, ["et-font-weight-normal"], []⟩]

/-- `[automation-id='buy-sell-button-rate-value']` (buy/sell price). -/
def rateValueSel : List SimpleSel :=
  [⟨none, [], [("automation-id", some "buy-sell-button-rate-value")]⟩]

/-- `img[automation-id='trade-item-avatar']` (avatar image). -/
def avatarSel : List SimpleSel :=
  [⟨some "img", [], [("automation-id", some "trade-item-avatar")]⟩]

/-- `[sub-head] .et-color-dark-grey` (last-updated label). -/
def updatedSel : List SimpleSel :=
  [⟨none, [], [("sub-head", none)]⟩, ⟨none, ["et-color-dark-grey"], []⟩]

/-- `.et-table-row.clickable-row` (portfolio rows). -/
def rowSel : List SimpleSel := [⟨none, ["et-table-row", "clickable-row"], []⟩]

/-- `[automation-id='cd-public-portfolio-list-balance-label']` (balance
label). -/
def balanceLabelSel : List SimpleSel :=
  [⟨none, [], [("automation-id", some "cd-public-portfolio-list-balance-label")]⟩]

/-- `.et-font-s` (balance value next to the label). -/
def fontSSel : List SimpleSel := [⟨none, ["et-font-s"], []⟩]

/-! ### Per-row field extraction (`_extract_etoro_asset_info`)

The Python function fills a fresh dict `asset_info` by a fixed sequence of
independent selector lookups, each inserting its field only when the lookup
succeeds, and finally returns the dict only when `asset_info.get("name")` is
truthy (present and non-empty).  All inserted keys are pairwise distinct, so
the dict is modelled exactly by the concatenation, in source order, of the
per-field association-list segments below. -/

/-- An asset entry: recognized field names mapped to string values, in
insertion order (model of the Python dict `asset_info`). -/
abbrev AssetInfo := List (String × String)

/-- Used as the (never inspected) default of guarded index accesses. -/
def emptyNode : Node := .elem "" [] []

/-- Lines 360-367: asset name via the primary selector, else the fallback
selector; no entry when neither matches. -/
def nameField (row : Node) : AssetInfo :=
  match row.selectFirst nameSel with
  | some e => [("name", getTextStrip e)]
  | none =>
    match row.selectFirst nameFallbackSel with
    | some e => [("name", getTextStrip e)]
    | none => []

/-- Lines 370-372: description. -/
def descriptionField (row : Node) : AssetInfo :=
  match row.selectFirst descSel with
  | some e => [("description", getTextStrip e)]
  | none => []

/-- Line 375/384: `row_element.select(".et-table-cell")`. -/
def tableCells (row : Node) : List Node := row.select cellSel

/-- Lines 375-381: trade direction from the first data cell, kept only when
its text is non-empty. -/
def directionField (row : Node) : AssetInfo :=
  match (tableCells row).head? with
  | none => []
  | some direction_cell =>
    match direction_cell.selectFirst fontWeightNormalSel with
    | none => []
    | some e =>
      let direction := getTextStrip e
      if direction != "" then [("direction", direction)] else []

/-- Lines 386-391: invested percentage from the second cell, attempted only
when the row has at least four data cells. -/
def investedField (row : Node) : AssetInfo :=
  let table_cells := tableCells row
  if 4 ≤ table_cells.length then
    match (table_cells.getD 1 emptyNode).selectFirst fontWeightNormalSel with
    | some e => [("invested_percentage", getTextStrip e)]
    | none => []
  else []

/-- Lines 393-395: the profit/loss element — the `.et-font-weight-normal`
element of the third data cell, looked up only when the row has at least four
data cells. -/
def plElement (row : Node) : Option Node :=
  let table_cells := tableCells row
  if 4 ≤ table_cells.length then
    (table_cells.getD 2 emptyNode).selectFirst fontWeightNormalSel
  else none

/-- Lines 396-404: profit/loss percentage from the profit/loss element, with
the sign classification derived from the element's class markers
(`et-positive` checked first, then `et-negative`, else no status entry). -/
def plFields (row : Node) : AssetInfo :=
  match plElement row with
  | some e =>
    [("profit_loss_percentage", getTextStrip e)] ++
    (if (Node.classList e).contains "et-positive" then
      [("profit_loss_status", "positive")]
    else if (Node.classList e).contains "et-negative" then
      [("profit_loss_status", "negative")]
    else [])
  | none => []

/-- Lines 406-410: value percentage from the fourth cell, attempted only when
the row has at least four data cells. -/
def valueField (row : Node) : AssetInfo :=
  let table_cells := tableCells row
  if 4 ≤ table_cells.length then
    match (table_cells.getD 3 emptyNode).selectFirst fontWeightNormalSel with
    | some e => [("value_percentage", getTextStrip e)]
    | none => []
  else []

/-- Lines 413-418: sell price from the fifth cell, attempted only when the
row has at least four cells and then at least six. -/
def sellPriceField (row : Node) : AssetInfo :=
  let table_cells := tableCells row
  if 4 ≤ table_cells.length then
    if 6 ≤ table_cells.length then
      match (table_cells.getD 4 emptyNode).selectFirst rateValueSel with
      | some e => [("sell_price", getTextStrip e)]
      | none => []
    else []
  else []

/-- Lines 420-424: buy price from the sixth cell, attempted only when the row
has at least four cells and then at least six. -/
def buyPriceField (row : Node) : AssetInfo :=
  let table_cells := tableCells row
  if 4 ≤ table_cells.length then
    if 6 ≤ table_cells.length then
      match (table_cells.getD 5 emptyNode).selectFirst rateValueSel with
      | some e => [("buy_price", getTextStrip e)]
      | none => []
    else []
  else []

/-- Lines 427-430: avatar URL and alt text, inserted together when the avatar
image is found and its `src` attribute is truthy (present and non-empty). -/
def avatarFields (row : Node) : AssetInfo :=
  match row.selectFirst avatarSel with
  | none => []
  | some e =>
    match attrVal e.attrList "src" with
    | some src =>
      if src != "" then
        [("avatar_url", src), ("alt_text", (attrVal e.attrList "alt").getD "")]
      else []
    | none => []

/-- The dict `asset_info` after the full source-order sequence of field
insertions; all inserted keys are pairwise distinct, so the dict is exactly
this concatenation. -/
def allFields (row : Node) : AssetInfo :=
  nameField row ++ descriptionField row ++ directionField row ++
  investedField row ++ plFields row ++ valueField row ++
  sellPriceField row ++ buyPriceField row ++ avatarFields row

/-- Model of `_extract_etoro_asset_info`: build the entry by the source-order
sequence of independent lookups, then return it only when the name field is
present and non-empty (Python truthiness of `asset_info.get("name")` at line
433). -/
def extract_etoro_asset_info (row : Node) : Option AssetInfo :=
  match (allFields row).lookup "name" with
  | some v => if v != "" then some (allFields row) else none
  | none => none

/-! ### Page-level extraction (`_extract_portfolio_from_page`)

The function initializes the record `portfolio_data` (lines 285-291), then
inside a `try` block reads `driver.page_source`, parses it, reads
`driver.current_url`, fills the record field by field and returns it; the
`except` handler (lines 342-344) returns the record as filled so far.  The two
driver reads are the statements in the `try` block that can raise on a live
session; they are modelled as `Except`-valued oracles.  The per-row calls to
`_extract_etoro_asset_info` sit inside their own `try`/`except` (lines
317-325), modelled by an `Except`-valued row oracle consumed by
`extractRows`. -/

/-- The record built by `_extract_portfolio_from_page`. -/
structure PortfolioData where
  user : Option String
  last_updated : Option String
  total_assets : Nat
  assets : List AssetInfo
  balance_percentage : Option String
deriving DecidableEq

/-- Lines 317-325: the row loop.  A row whose extraction raises is skipped
(`except ... continue`); a row yielding no entry is skipped; a row yielding an
entry appends it. -/
def extractRows (extract : Node → Except Unit (Option AssetInfo)) :
    List Node → List AssetInfo
  | [] => []
  | row :: rest =>
    match extract row with
    | .error _ => extractRows extract rest
    | .ok none => extractRows extract rest
    | .ok (some asset_info) => asset_info :: extractRows extract rest

/-- Lines 300-302: `current_url.split('/people/')[1].split('/')[0]`. -/
def userFromUrl (current_url : String) : String :=
  ((strSplitOn ((strSplitOn current_url "/people/").getD 1 "") "/").headD "")

/-- Body of the `try` block of `_extract_portfolio_from_page` (lines
293-340): `.ok` is the normal return carrying the finished record, `.error`
is a raised exception carrying the record as filled at the raise point (the
handler has the partially mutated `portfolio_data` in scope). -/
def extract_portfolio_body (pageSource : Except Unit Node)
    (currentUrl : Except Unit String)
    (rowExtract : Node → Except Unit (Option AssetInfo)) :
    Except PortfolioData PortfolioData :=
  let portfolio_data : PortfolioData := ⟨none, none, 0, [], none⟩
  match pageSource with
  | .error _ => .error portfolio_data
  | .ok soup =>
  match currentUrl with
  | .error _ => .error portfolio_data
  | .ok current_url =>
  let portfolio_data :=
    if strContainsSub current_url "/people/" then
      { portfolio_data with user := some (userFromUrl current_url) }
    else portfolio_data
  let portfolio_data :=
    match soup.selectFirst updatedSel with
    | some update_element =>
      let update_text := getTextStrip update_element
      if strContainsSub update_text "Last updated on:" then
        { portfolio_data with
          last_updated := some (strTrim (strReplace update_text "Last updated on:" "")) }
      else portfolio_data
    | none => portfolio_data
  let portfolio_rows := soup.select rowSel
  let assets := extractRows rowExtract portfolio_rows
  let portfolio_data :=
    { portfolio_data with assets := assets, total_assets := assets.length }
  let portfolio_data :=
    match soup.selectFirst balanceLabelSel with
    | some balance_element =>
      match findParent balance_element soup with
      | some balance_parent =>
        match balance_parent.selectFirst fontSSel with
        | some balance_value =>
          { portfolio_data with balance_percentage := some (getTextStrip balance_value) }
        | none => portfolio_data
      | none => portfolio_data
    | none => portfolio_data
  .ok portfolio_data

/-- Model of `_extract_portfolio_from_page`, generic in the row-extraction
call: the `try` body's record is returned on both the normal path (line 340)
and the exception path (lines 342-344). -/
def extract_portfolio_from_pageWith (pageSource : Except Unit Node)
    (currentUrl : Except Unit String)
    (rowExtract : Node → Except Unit (Option AssetInfo)) : PortfolioData :=
  match extract_portfolio_body pageSource currentUrl rowExtract with
  | .ok portfolio_data => portfolio_data
  | .error portfolio_data => portfolio_data

/-- Model of `_extract_portfolio_from_page` with the concrete per-row call to
`_extract_etoro_asset_info`, which is total on a parsed tree. -/
def extract_portfolio_from_page (pageSource : Except Unit Node)
    (currentUrl : Except Unit String) : PortfolioData :=
  extract_portfolio_from_pageWith pageSource currentUrl
    (fun row => .ok (extract_etoro_asset_info row))

/-! ### Top-level extraction (`get_portfolio_data`)

The method first checks `self.driver` and raises `RuntimeError("WebDriver not
initialized...")` when no session exists (lines 145-146).  Everything after
that sits in a `try` block whose handlers (lines 271-276) catch
`WebDriverException` and every other `Exception` and return `None`.  Inside
the block: navigation (may raise, caught by the outer handlers), the bounded
wait for `body` (its `TimeoutException` is caught at lines 160-162, returning
`None`), the not-found/private marker check on `page_source` (lines 165-168,
returning `None`; a raise while reading the source is caught by the outer
handlers), the CAPTCHA/portfolio-tab block in its own `try` whose handler
(lines 265-266) only logs, and finally the call to
`_extract_portfolio_from_page`, which never raises.  The possible raise
points are modelled as Boolean/`Except` oracles in `DriverState`. -/

/-- The one error `get_portfolio_data` can raise. -/
inductive ScrapeError where
  | notInitialized
deriving DecidableEq

/-- Oracles for one live-session run: which driver interactions raise, what
the page source contains, and what the extraction phase sees. -/
structure DriverState where
  /-- `driver.get(profile_url)` raises (caught by the outer handlers). -/
  navFails : Bool
  /-- the bounded wait for `body` times out (`TimeoutException`). -/
  waitTimesOut : Bool
  /-- reading `page_source` for the marker check raises. -/
  pageSourceFails : Bool
  /-- the page source scanned for the not-found/private markers. -/
  pageSource : String
  /-- the CAPTCHA/portfolio-tab block raises (absorbed at lines 265-266). -/
  tabBlockFails : Bool
  /-- page source read and parsed by the extraction phase. -/
  extractPageSource : Except Unit Node
  /-- `current_url` read by the extraction phase. -/
  extractCurrentUrl : Except Unit String

/-- Lines 165-166: the accessibility markers, checked on the lowercased page
source. -/
def hasPrivacyMarker (page_source : String) : Bool :=
  strContainsSub (strToLower page_source) "profile not found" ||
  strContainsSub (strToLower page_source) "private profile"

/-- Model of `get_portfolio_data`: `.error .notInitialized` iff no session
exists; otherwise `.ok none` ("no data") on navigation failure, page-load
timeout, marker-check failure or a detected marker, and otherwise `.ok (some
record)` from the extraction phase — the tab block's outcome never changes
the control flow. -/
def get_portfolio_data (driver : Option DriverState) (username : String) :
    Except ScrapeError (Option PortfolioData) :=
  match driver with
  | none => .error ScrapeError.notInitialized
  | some d =>
    let _profile_url := get_profile_url username
    if d.navFails then .ok none
    else if d.waitTimesOut then .ok none
    else if d.pageSourceFails then .ok none
    else if hasPrivacyMarker d.pageSource then .ok none
    else
      let _tab_outcome := d.tabBlockFails
      .ok (some (extract_portfolio_from_page d.extractPageSource d.extractCurrentUrl))

/-! ### Browser setup (`_setup_driver`)

The method tries a primary Chrome start (lines 75-78); on any exception it
walks the fixed list of alternate binary locations (lines 86-106), attempting
a start for each location that exists on disk and returning at the first
success; if none succeeds it tries a minimal option set (lines 108-120) and,
when that also fails, raises `RuntimeError("Could not start Chrome browser...")`
(line 123).  The environment is modelled by predicates saying which attempts
succeed. -/

/-- Lines 86-92: the fixed list of alternate Chrome binary locations, in
source order. -/
def chrome_paths : List String :=
  ["/usr/bin/google-chrome", "/usr/bin/google-chrome-stable",
   "/usr/bin/chromium-browser", "/usr/bin/chromium", "/snap/bin/chromium"]

/-- Which startup attempt produced the driver. -/
inductive DriverSetup where
  | primary
  | binaryAt (path : String)
  | minimal
deriving DecidableEq

/-- The environment a setup run sees: whether the primary start succeeds,
which binary paths exist on disk, which of them start successfully, and
whether the minimal-options start succeeds. -/
structure ChromeEnv where
  primaryWorks : Bool
  pathExists : String → Bool
  binaryWorks : String → Bool
  minimalWorks : Bool

/-- Lines 94-106: the fallback loop over binary locations — skip locations
that do not exist, return at the first successful start, otherwise continue. -/
def tryChromePaths (env : ChromeEnv) : List String → Option String
  | [] => none
  | chrome_path :: rest =>
    if env.pathExists chrome_path then
      if env.binaryWorks chrome_path then some chrome_path
      else tryChromePaths env rest
    else tryChromePaths env rest

/-- Model of `_setup_driver`: primary attempt, then the binary-location
fallback loop, then the minimal attempt, then the fatal `RuntimeError`. -/
def setup_driver (env : ChromeEnv) : Except Unit DriverSetup :=
  if env.primaryWorks then .ok DriverSetup.primary
  else
    match tryChromePaths env chrome_paths with
    | some chrome_path => .ok (DriverSetup.binaryAt chrome_path)
    | none =>
      if env.minimalWorks then .ok DriverSetup.minimal
      else .error ()

/-- Whether one attempt of the fallback chain succeeds in a given
environment; a binary-location attempt succeeds when the location exists on
disk and the start from it succeeds. -/
def attemptSucceeds (env : ChromeEnv) : DriverSetup → Bool
  | DriverSetup.primary => env.primaryWorks
  | DriverSetup.binaryAt p => env.pathExists p && env.binaryWorks p
  | DriverSetup.minimal => env.minimalWorks

/-- The fixed order of startup attempts: primary, the five binary locations
in source order, minimal. -/
def orderedAttempts : List DriverSetup :=
  DriverSetup.primary :: (chrome_paths.map DriverSetup.binaryAt ++ [DriverSetup.minimal])

/-! ### Concrete fixtures

Literal HTML fixtures (as parsed trees) and concrete oracle instances used to
instantiate the theorems below at explicit inputs. -/

/-- A well-formed portfolio row: name, description, and four data cells
(direction, invested, profit/loss with the positive marker, value). -/
def sampleRow : Node :=
  .elem "div" [("class", "et-table-row clickable-row")] [
    .elem "div" [("automation-id", "cd-public-portfolio-table-item-title")] [.text "AAPL"],
    .elem "div" [("class", "et-color-dark-grey ellipsis")] [.text "Apple Inc"],
    .elem "div" [("class", "et-table-cell")] [
      .elem "span" [("class", "et-font-weight-normal")] [.text "Buy"]],
    .elem "div" [("class", "et-table-cell")] [
      .elem "span" [("class", "et-font-weight-normal")] [.text "10.5%"]],
    .elem "div" [("class", "et-table-cell")] [
      .elem "span" [("class", "et-font-weight-normal et-positive")] [.text "5.2%"]],
    .elem "div" [("class", "et-table-cell")] [
      .elem "span" [("class", "et-font-weight-normal")] [.text "12%"]]
  ]

/-- The entry extracted from `sampleRow`. -/
def sampleRowInfo : AssetInfo :=
  [("name", "AAPL"), ("description", "Apple Inc"), ("direction", "Buy"),
   ("invested_percentage", "10.5%"), ("profit_loss_percentage", "5.2%"),
   ("profit_loss_status", "positive"), ("value_percentage", "12%")]

/-- A row whose profit/loss element carries both the positive and the
negative marker class. -/
def bothMarkersRow : Node :=
  .elem "div" [("class", "et-table-row clickable-row")] [
    .elem "div" [("automation-id", "cd-public-portfolio-table-item-title")] [.text "TSLA"],
    .elem "div" [("class", "et-table-cell")] [
      .elem "span" [("class", "et-font-weight-normal")] [.text "Buy"]],
    .elem "div" [("class", "et-table-cell")] [
      .elem "span" [("class", "et-font-weight-normal")] [.text "10%"]],
    .elem "div" [("class", "et-table-cell")] [
      .elem "span" [("class", "et-font-weight-normal et-positive et-negative")] [.text "3%"]],
    .elem "div" [("class", "et-table-cell")] [
      .elem "span" [("class", "et-font-weight-normal")] [.text "12%"]]
  ]

/-- A named row with only three data cells; its second cell does contain an
`.et-font-weight-normal` element. -/
def threeCellRow : Node :=
  .elem "div" [("class", "et-table-row clickable-row")] [
    .elem "div" [("automation-id", "cd-public-portfolio-table-item-title")] [.text "GOLD"],
    .elem "div" [("class", "et-table-cell")] [
      .elem "span" [("class", "et-font-weight-normal")] [.text "Buy"]],
    .elem "div" [("class", "et-table-cell")] [
      .elem "span" [("class", "et-font-weight-normal")] [.text "25%"]],
    .elem "div" [("class", "et-table-cell")] [
      .elem "span" [("class", "et-font-weight-normal")] [.text "7%"]]
  ]

/-- A row with neither the primary nor the fallback name element. -/
def noNameRow : Node :=
  .elem "div" [("class", "et-table-row clickable-row")] [
    .elem "div" [("class", "et-color-dark-grey ellipsis")] [.text "Mystery"]
  ]

/-- The profit/loss element of `bothMarkersRow`. -/
def bothMarkersPlElement : Node :=
  .elem "span" [("class", "et-font-weight-normal et-positive et-negative")] [.text "3%"]

/-- The entry extracted from `bothMarkersRow`. -/
def bothMarkersInfo : AssetInfo :=
  [("name", "TSLA"), ("direction", "Buy"), ("invested_percentage", "10%"),
   ("profit_loss_percentage", "3%"), ("profit_loss_status", "positive"),
   ("value_percentage", "12%")]

/-- The element matched by the invested selector inside `threeCellRow`. -/
def threeCellInvestedElement : Node :=
  .elem "span" [("class", "et-font-weight-normal")] [.text "25%"]

/-- The entry extracted from `threeCellRow`. -/
def threeCellInfo : AssetInfo := [("name", "GOLD"), ("direction", "Buy")]

/-- The record as initialized at lines 285-291. -/
def initialPortfolioData : PortfolioData := ⟨none, none, 0, [], none⟩

/-- A node standing for a row whose per-row extraction raises. -/
def badNode : Node := .text "bad"

/-- A row oracle that raises exactly on text nodes and otherwise performs the
per-row extraction. -/
def rowOracle (n : Node) : Except Unit (Option AssetInfo) :=
  match n with
  | .text _ => Except.error ()
  | .elem t a cs => Except.ok (extract_etoro_asset_info (.elem t a cs))

/-- A live session whose page-load wait times out. -/
def timeoutDriver : DriverState :=
  ⟨false, true, false, "", false, Except.error (), Except.error ()⟩

/-- An environment where only the `/usr/bin/chromium` binary attempt
succeeds. -/
def sampleChromeEnv : ChromeEnv :=
  ⟨false, fun p => p == "/usr/bin/chromium", fun p => p == "/usr/bin/chromium", false⟩

/-! ### Association-lookup helpers

The entry is an association list with pairwise distinct keys; these lemmas
let a lookup be routed to the one per-field segment owning the key. -/

/-- Association lookup distributes over append, preferring the left list. -/
theorem lookup_append {β : Type} (k : String) (l₁ l₂ : List (String × β)) :
    (l₁ ++ l₂).lookup k = (l₁.lookup k).or (l₂.lookup k) := by
  induction l₁ with
  | nil => simp [Option.none_or]
  | cons p rest ih =>
    cases p with
    | mk a b =>
      simp only [List.cons_append, List.lookup_cons]
      cases k == a <;> simp [ih]

/-- Lookup misses a singleton with a different key. -/
theorem lookup_singleton_ne {β : Type} (k a : String) (v : β) (h : ¬ k = a) :
    List.lookup k [(a, v)] = none := by
  have hb : (k == a) = false := beq_eq_false_iff_ne.mpr h
  simp [List.lookup_cons, hb]

theorem nameField_lookup_ne (row : Node) (k : String) (h : ¬ k = "name") :
    (nameField row).lookup k = none := by
  unfold nameField
  repeat' split
  all_goals first | rfl | exact lookup_singleton_ne k "name" _ h

theorem descriptionField_lookup_ne (row : Node) (k : String) (h : ¬ k = "description") :
    (descriptionField row).lookup k = none := by
  unfold descriptionField
  repeat' split
  all_goals first | rfl | exact lookup_singleton_ne k "description" _ h

theorem directionField_lookup_ne (row : Node) (k : String) (h : ¬ k = "direction") :
    (directionField row).lookup k = none := by
  unfold directionField
  repeat' first | split | dsimp only
  all_goals first | rfl | exact lookup_singleton_ne k "direction" _ h

theorem investedField_lookup_ne (row : Node) (k : String)
    (h : ¬ k = "invested_percentage") :
    (investedField row).lookup k = none := by
  unfold investedField
  repeat' first | split | dsimp only
  all_goals first | rfl | exact lookup_singleton_ne k "invested_percentage" _ h

theorem plFields_lookup_ne (row : Node) (k : String)
    (h1 : ¬ k = "profit_loss_percentage") (h2 : ¬ k = "profit_loss_status") :
    (plFields row).lookup k = none := by
  have hb1 : (k == "profit_loss_percentage") = false := beq_eq_false_iff_ne.mpr h1
  have hb2 : (k == "profit_loss_status") = false := beq_eq_false_iff_ne.mpr h2
  unfold plFields
  repeat' split
  all_goals simp [List.lookup_cons, List.lookup, hb1, hb2]

theorem valueField_lookup_ne (row : Node) (k : String)
    (h : ¬ k = "value_percentage") :
    (valueField row).lookup k = none := by
  unfold valueField
  repeat' first | split | dsimp only
  all_goals first | rfl | exact lookup_singleton_ne k "value_percentage" _ h

theorem sellPriceField_lookup_ne (row : Node) (k : String) (h : ¬ k = "sell_price") :
    (sellPriceField row).lookup k = none := by
  unfold sellPriceField
  repeat' first | split | dsimp only
  all_goals first | rfl | exact lookup_singleton_ne k "sell_price" _ h

theorem buyPriceField_lookup_ne (row : Node) (k : String) (h : ¬ k = "buy_price") :
    (buyPriceField row).lookup k = none := by
  unfold buyPriceField
  repeat' first | split | dsimp only
  all_goals first | rfl | exact lookup_singleton_ne k "buy_price" _ h

theorem avatarFields_lookup_ne (row : Node) (k : String)
    (h1 : ¬ k = "avatar_url") (h2 : ¬ k = "alt_text") :
    (avatarFields row).lookup k = none := by
  have hb1 : (k == "avatar_url") = false := beq_eq_false_iff_ne.mpr h1
  have hb2 : (k == "alt_text") = false := beq_eq_false_iff_ne.mpr h2
  unfold avatarFields
  repeat' split
  all_goals simp [List.lookup_cons, List.lookup, hb1, hb2]

/-- Route a lookup in the full entry to the segment owning the key. -/
theorem allFields_lookup_name (row : Node) :
    (allFields row).lookup "name" = (nameField row).lookup "name" := by
  simp [allFields, lookup_append,
    descriptionField_lookup_ne row "name" (by decide),
    directionField_lookup_ne row "name" (by decide),
    investedField_lookup_ne row "name" (by decide),
    plFields_lookup_ne row "name" (by decide) (by decide),
    valueField_lookup_ne row "name" (by decide),
    sellPriceField_lookup_ne row "name" (by decide),
    buyPriceField_lookup_ne row "name" (by decide),
    avatarFields_lookup_ne row "name" (by decide) (by decide),
    Option.or_none]

/-- Route a description lookup to its owning segment. -/
theorem allFields_lookup_description (row : Node) :
    (allFields row).lookup "description" = (descriptionField row).lookup "description" := by
  simp [allFields, lookup_append,
    nameField_lookup_ne row "description" (by decide),
    directionField_lookup_ne row "description" (by decide),
    investedField_lookup_ne row "description" (by decide),
    plFields_lookup_ne row "description" (by decide) (by decide),
    valueField_lookup_ne row "description" (by decide),
    sellPriceField_lookup_ne row "description" (by decide),
    buyPriceField_lookup_ne row "description" (by decide),
    avatarFields_lookup_ne row "description" (by decide) (by decide),
    Option.or_none, Option.none_or]

/-- Route a direction lookup to its owning segment. -/
theorem allFields_lookup_direction (row : Node) :
    (allFields row).lookup "direction" = (directionField row).lookup "direction" := by
  simp [allFields, lookup_append,
    nameField_lookup_ne row "direction" (by decide),
    descriptionField_lookup_ne row "direction" (by decide),
    investedField_lookup_ne row "direction" (by decide),
    plFields_lookup_ne row "direction" (by decide) (by decide),
    valueField_lookup_ne row "direction" (by decide),
    sellPriceField_lookup_ne row "direction" (by decide),
    buyPriceField_lookup_ne row "direction" (by decide),
    avatarFields_lookup_ne row "direction" (by decide) (by decide),
    Option.or_none, Option.none_or]

/-- Route an invested-percentage lookup to its owning segment. -/
theorem allFields_lookup_invested (row : Node) :
    (allFields row).lookup "invested_percentage" =
      (investedField row).lookup "invested_percentage" := by
  simp [allFields, lookup_append,
    nameField_lookup_ne row "invested_percentage" (by decide),
    descriptionField_lookup_ne row "invested_percentage" (by decide),
    directionField_lookup_ne row "invested_percentage" (by decide),
    plFields_lookup_ne row "invested_percentage" (by decide) (by decide),
    valueField_lookup_ne row "invested_percentage" (by decide),
    sellPriceField_lookup_ne row "invested_percentage" (by decide),
    buyPriceField_lookup_ne row "invested_percentage" (by decide),
    avatarFields_lookup_ne row "invested_percentage" (by decide) (by decide),
    Option.or_none, Option.none_or]

/-- Route a profit-loss-status lookup to its owning segment. -/
theorem allFields_lookup_pl_status (row : Node) :
    (allFields row).lookup "profit_loss_status" =
      (plFields row).lookup "profit_loss_status" := by
  simp [allFields, lookup_append,
    nameField_lookup_ne row "profit_loss_status" (by decide),
    descriptionField_lookup_ne row "profit_loss_status" (by decide),
    directionField_lookup_ne row "profit_loss_status" (by decide),
    investedField_lookup_ne row "profit_loss_status" (by decide),
    valueField_lookup_ne row "profit_loss_status" (by decide),
    sellPriceField_lookup_ne row "profit_loss_status" (by decide),
    buyPriceField_lookup_ne row "profit_loss_status" (by decide),
    avatarFields_lookup_ne row "profit_loss_status" (by decide) (by decide),
    Option.or_none, Option.none_or]

/-- Route a profit-loss-percentage lookup to its owning segment. -/
theorem allFields_lookup_pl_percentage (row : Node) :
    (allFields row).lookup "profit_loss_percentage" =
      (plFields row).lookup "profit_loss_percentage" := by
  simp [allFields, lookup_append,
    nameField_lookup_ne row "profit_loss_percentage" (by decide),
    descriptionField_lookup_ne row "profit_loss_percentage" (by decide),
    directionField_lookup_ne row "profit_loss_percentage" (by decide),
    investedField_lookup_ne row "profit_loss_percentage" (by decide),
    valueField_lookup_ne row "profit_loss_percentage" (by decide),
    sellPriceField_lookup_ne row "profit_loss_percentage" (by decide),
    buyPriceField_lookup_ne row "profit_loss_percentage" (by decide),
    avatarFields_lookup_ne row "profit_loss_percentage" (by decide) (by decide),
    Option.or_none, Option.none_or]

/-- Route a value-percentage lookup to its owning segment. -/
theorem allFields_lookup_value (row : Node) :
    (allFields row).lookup "value_percentage" =
      (valueField row).lookup "value_percentage" := by
  simp [allFields, lookup_append,
    nameField_lookup_ne row "value_percentage" (by decide),
    descriptionField_lookup_ne row "value_percentage" (by decide),
    directionField_lookup_ne row "value_percentage" (by decide),
    investedField_lookup_ne row "value_percentage" (by decide),
    plFields_lookup_ne row "value_percentage" (by decide) (by decide),
    sellPriceField_lookup_ne row "value_percentage" (by decide),
    buyPriceField_lookup_ne row "value_percentage" (by decide),
    avatarFields_lookup_ne row "value_percentage" (by decide) (by decide),
    Option.or_none, Option.none_or]

/-- Route a sell-price lookup to its owning segment. -/
theorem allFields_lookup_sell (row : Node) :
    (allFields row).lookup "sell_price" = (sellPriceField row).lookup "sell_price" := by
  simp [allFields, lookup_append,
    nameField_lookup_ne row "sell_price" (by decide),
    descriptionField_lookup_ne row "sell_price" (by decide),
    directionField_lookup_ne row "sell_price" (by decide),
    investedField_lookup_ne row "sell_price" (by decide),
    plFields_lookup_ne row "sell_price" (by decide) (by decide),
    valueField_lookup_ne row "sell_price" (by decide),
    buyPriceField_lookup_ne row "sell_price" (by decide),
    avatarFields_lookup_ne row "sell_price" (by decide) (by decide),
    Option.or_none, Option.none_or]

/-- Route a buy-price lookup to its owning segment. -/
theorem allFields_lookup_buy (row : Node) :
    (allFields row).lookup "buy_price" = (buyPriceField row).lookup "buy_price" := by
  simp [allFields, lookup_append,
    nameField_lookup_ne row "buy_price" (by decide),
    descriptionField_lookup_ne row "buy_price" (by decide),
    directionField_lookup_ne row "buy_price" (by decide),
    investedField_lookup_ne row "buy_price" (by decide),
    plFields_lookup_ne row "buy_price" (by decide) (by decide),
    valueField_lookup_ne row "buy_price" (by decide),
    sellPriceField_lookup_ne row "buy_price" (by decide),
    avatarFields_lookup_ne row "buy_price" (by decide) (by decide),
    Option.or_none, Option.none_or]

/-- Route an avatar-URL lookup to its owning segment. -/
theorem allFields_lookup_avatar (row : Node) :
    (allFields row).lookup "avatar_url" = (avatarFields row).lookup "avatar_url" := by
  simp [allFields, lookup_append,
    nameField_lookup_ne row "avatar_url" (by decide),
    descriptionField_lookup_ne row "avatar_url" (by decide),
    directionField_lookup_ne row "avatar_url" (by decide),
    investedField_lookup_ne row "avatar_url" (by decide),
    plFields_lookup_ne row "avatar_url" (by decide) (by decide),
    valueField_lookup_ne row "avatar_url" (by decide),
    sellPriceField_lookup_ne row "avatar_url" (by decide),
    buyPriceField_lookup_ne row "avatar_url" (by decide),
    Option.or_none, Option.none_or]

/-- Route an alt-text lookup to its owning segment. -/
theorem allFields_lookup_alt (row : Node) :
    (allFields row).lookup "alt_text" = (avatarFields row).lookup "alt_text" := by
  simp [allFields, lookup_append,
    nameField_lookup_ne row "alt_text" (by decide),
    descriptionField_lookup_ne row "alt_text" (by decide),
    directionField_lookup_ne row "alt_text" (by decide),
    investedField_lookup_ne row "alt_text" (by decide),
    plFields_lookup_ne row "alt_text" (by decide) (by decide),
    valueField_lookup_ne row "alt_text" (by decide),
    sellPriceField_lookup_ne row "alt_text" (by decide),
    buyPriceField_lookup_ne row "alt_text" (by decide),
    Option.or_none, Option.none_or]

/-- A successful per-row extraction returns exactly the fully built entry. -/
theorem extract_eq_allFields (row : Node) (info : AssetInfo)
    (h : extract_etoro_asset_info row = some info) : info = allFields row := by
  unfold extract_etoro_asset_info at h
  split at h
  · split at h
    · exact ((Option.some.injEq _ _).mp h).symm
    · cases h
  · cases h

/-- The description entry equals the bare selector lookup, with no guard. -/
theorem descriptionField_lookup (row : Node) :
    (descriptionField row).lookup "description" =
      (row.selectFirst descSel).map getTextStrip := by
  unfold descriptionField
  cases hsel : row.selectFirst descSel <;> simp [hsel, List.lookup_cons, List.lookup]

/-- With at least four data cells, the invested entry equals the selector
lookup in the second cell. -/
theorem investedField_lookup_of_ge (row : Node) (h : 4 ≤ (tableCells row).length) :
    (investedField row).lookup "invested_percentage" =
      (((tableCells row).getD 1 emptyNode).selectFirst fontWeightNormalSel).map getTextStrip := by
  unfold investedField
  dsimp only
  rw [if_pos h]
  cases ((tableCells row).getD 1 emptyNode).selectFirst fontWeightNormalSel <;> rfl

/-- With fewer than four data cells, the invested entry is absent. -/
theorem investedField_lookup_of_lt (row : Node) (h : (tableCells row).length < 4) :
    (investedField row).lookup "invested_percentage" = none := by
  unfold investedField
  dsimp only
  rw [if_neg (by omega : ¬ 4 ≤ (tableCells row).length)]
  rfl

/-- With at least four data cells, the value entry equals the selector lookup
in the fourth cell. -/
theorem valueField_lookup_of_ge (row : Node) (h : 4 ≤ (tableCells row).length) :
    (valueField row).lookup "value_percentage" =
      (((tableCells row).getD 3 emptyNode).selectFirst fontWeightNormalSel).map getTextStrip := by
  unfold valueField
  dsimp only
  rw [if_pos h]
  cases ((tableCells row).getD 3 emptyNode).selectFirst fontWeightNormalSel <;> rfl

/-- With fewer than four data cells, the value entry is absent. -/
theorem valueField_lookup_of_lt (row : Node) (h : (tableCells row).length < 4) :
    (valueField row).lookup "value_percentage" = none := by
  unfold valueField
  dsimp only
  rw [if_neg (by omega : ¬ 4 ≤ (tableCells row).length)]
  rfl

/-- With at least six data cells, the sell-price entry equals the selector
lookup in the fifth cell. -/
theorem sellPriceField_lookup_of_ge (row : Node) (h : 6 ≤ (tableCells row).length) :
    (sellPriceField row).lookup "sell_price" =
      (((tableCells row).getD 4 emptyNode).selectFirst rateValueSel).map getTextStrip := by
  have h4 : 4 ≤ (tableCells row).length := le_trans (by decide) h
  unfold sellPriceField
  dsimp only
  rw [if_pos h4, if_pos h]
  cases ((tableCells row).getD 4 emptyNode).selectFirst rateValueSel <;> rfl

/-- With fewer than six data cells, the sell-price entry is absent. -/
theorem sellPriceField_lookup_of_lt (row : Node) (h : (tableCells row).length < 6) :
    (sellPriceField row).lookup "sell_price" = none := by
  unfold sellPriceField
  dsimp only
  by_cases h4 : 4 ≤ (tableCells row).length
  · rw [if_pos h4, if_neg (by omega : ¬ 6 ≤ (tableCells row).length)]
    rfl
  · rw [if_neg h4]
    rfl

/-- With at least six data cells, the buy-price entry equals the selector
lookup in the sixth cell. -/
theorem buyPriceField_lookup_of_ge (row : Node) (h : 6 ≤ (tableCells row).length) :
    (buyPriceField row).lookup "buy_price" =
      (((tableCells row).getD 5 emptyNode).selectFirst rateValueSel).map getTextStrip := by
  have h4 : 4 ≤ (tableCells row).length := le_trans (by decide) h
  unfold buyPriceField
  dsimp only
  rw [if_pos h4, if_pos h]
  cases ((tableCells row).getD 5 emptyNode).selectFirst rateValueSel <;> rfl

/-- With fewer than six data cells, the buy-price entry is absent. -/
theorem buyPriceField_lookup_of_lt (row : Node) (h : (tableCells row).length < 6) :
    (buyPriceField row).lookup "buy_price" = none := by
  unfold buyPriceField
  dsimp only
  by_cases h4 : 4 ≤ (tableCells row).length
  · rw [if_pos h4, if_neg (by omega : ¬ 6 ≤ (tableCells row).length)]
    rfl
  · rw [if_neg h4]
    rfl

/-- With fewer than four data cells the profit/loss element is not looked
up. -/
theorem plElement_of_lt (row : Node) (h : (tableCells row).length < 4) :
    plElement row = none := by
  unfold plElement
  dsimp only
  rw [if_neg (by omega : ¬ 4 ≤ (tableCells row).length)]

/-- Boolean membership to membership. -/
theorem mem_of_containsb {l : List String} {a : String} (h : l.contains a = true) : a ∈ l :=
  List.mem_of_elem_eq_true h

/-- Negative Boolean membership to non-membership. -/
theorem not_mem_of_containsb {l : List String} {a : String}
    (h : l.contains a = false) : ¬ a ∈ l := by
  intro hm
  have h2 : l.contains a = true := List.elem_eq_true_of_mem hm
  rw [h2] at h
  cases h

/-! ### Claim theorems -/

/-- C1: for any input markup and any outcome of the driver interactions and
per-row extractions — including the paths where extraction raises partway and
the partial or empty record is returned — the record produced by
`_extract_portfolio_from_page` has `total_assets` equal to the length of its
`assets` sequence. -/
theorem total_assets_eq_assets_length (ps : Except Unit Node) (cu : Except Unit String)
    (rx : Node → Except Unit (Option AssetInfo)) :
    (extract_portfolio_from_pageWith ps cu rx).total_assets =
    (extract_portfolio_from_pageWith ps cu rx).assets.length := by
  cases ps with
  | error e => rfl
  | ok soup =>
    cases cu with
    | error e => rfl
    | ok current_url =>
      simp only [extract_portfolio_from_pageWith, extract_portfolio_body]
      repeat' split
      all_goals rfl

/-- C2: any exception raised inside the markup-extraction phase (reading or
parsing the page source, reading the current URL) is caught and the call
returns the partially built record rather than propagating, while invoking
extraction before a session exists raises the not-initialized error. -/
theorem extraction_exceptions_absorbed :
    (∀ (ps : Except Unit Node) (cu : Except Unit String)
       (rx : Node → Except Unit (Option AssetInfo)),
      ps = Except.error () ∨ cu = Except.error () →
      ∃ pd, extract_portfolio_body ps cu rx = Except.error pd ∧
        extract_portfolio_from_pageWith ps cu rx = pd) ∧
    (∀ username : String,
      get_portfolio_data none username = Except.error ScrapeError.notInitialized) := by
  constructor
  · intro ps cu rx h
    rcases h with h | h
    · subst h; exact ⟨_, rfl, rfl⟩
    · subst h
      cases ps with
      | error e => exact ⟨_, rfl, rfl⟩
      | ok soup => exact ⟨_, rfl, rfl⟩
  · intro username; rfl

/-- Witness for C2: with a raising page-source read, the body raises and the
call still returns the record built so far — here the freshly initialized
record. -/
theorem extraction_exceptions_absorbed_witness :
    extract_portfolio_from_pageWith (Except.error ()) (Except.ok "u")
      (fun row => Except.ok (extract_etoro_asset_info row)) = initialPortfolioData := by
  obtain ⟨pd, h1, h2⟩ := extraction_exceptions_absorbed.1 (Except.error ()) (Except.ok "u")
    (fun row => Except.ok (extract_etoro_asset_info row)) (Or.inl rfl)
  have h0 : extract_portfolio_body (Except.error ()) (Except.ok "u")
      (fun row => Except.ok (extract_etoro_asset_info row)) =
      Except.error initialPortfolioData := rfl
  rw [h0] at h1
  rw [h2, (Except.error.inj h1).symm]

/-- C3: with a live session, if the page-load wait times out or the loaded
content carries a profile-not-found or private-profile marker, the call
returns `none` (no data) and raises nothing. -/
theorem no_data_on_timeout_or_privacy_marker (d : DriverState) (username : String)
    (h : d.waitTimesOut = true ∨ hasPrivacyMarker d.pageSource = true) :
    get_portfolio_data (some d) username = Except.ok none := by
  rcases h with h | h <;>
    cases hn : d.navFails <;> cases hw : d.waitTimesOut <;> cases hp : d.pageSourceFails <;>
      cases hm : hasPrivacyMarker d.pageSource <;>
        simp_all [get_portfolio_data]

/-- Witness for C3: a session whose page-load wait times out yields no
data. -/
theorem no_data_on_timeout_witness :
    get_portfolio_data (some timeoutDriver) "bob" = Except.ok none :=
  no_data_on_timeout_or_privacy_marker timeoutDriver "bob" (Or.inl rfl)

/-- The row loop distributes over concatenation of row sequences. -/
theorem extractRows_append (f : Node → Except Unit (Option AssetInfo)) (l₁ l₂ : List Node) :
    extractRows f (l₁ ++ l₂) = extractRows f l₁ ++ extractRows f l₂ := by
  induction l₁ with
  | nil => rfl
  | cons row rest ih =>
    cases hf : f row with
    | error e => simp [extractRows, hf, ih]
    | ok o => cases o <;> simp [extractRows, hf, ih]

/-- C4: a row whose per-row extraction raises is skipped while every sibling
row is still processed: the batch result is exactly the concatenation of the
results for the rows before and after it, so the assets list (and with it
`total_assets`) reflects only successfully extracted rows and the batch never
aborts. -/
theorem failing_row_skipped (f : Node → Except Unit (Option AssetInfo))
    (pre post : List Node) (bad : Node) (h : f bad = Except.error ()) :
    extractRows f (pre ++ bad :: post) = extractRows f pre ++ extractRows f post := by
  rw [extractRows_append]
  simp [extractRows, h]

/-- Witness for C4: a raising middle row between two good rows is skipped. -/
theorem failing_row_skipped_witness :
    extractRows rowOracle ([sampleRow] ++ badNode :: [threeCellRow]) =
      extractRows rowOracle [sampleRow] ++ extractRows rowOracle [threeCellRow] :=
  failing_row_skipped rowOracle [sampleRow] [threeCellRow] badNode rfl

/-- C5: an asset entry appears in the result only with a non-empty name, and
a row from which neither the primary nor the fallback name selector yields a
non-empty name is discarded entirely. -/
theorem entry_requires_nonempty_name (row : Node) :
    (∀ info, extract_etoro_asset_info row = some info →
      ∃ v, info.lookup "name" = some v ∧ ¬ v = "") ∧
    ((∀ e, row.selectFirst nameSel = some e → getTextStrip e = "") →
     (∀ e, row.selectFirst nameFallbackSel = some e → getTextStrip e = "") →
     extract_etoro_asset_info row = none) := by
  constructor
  · intro info hinfo
    have hi : info = allFields row := extract_eq_allFields row info hinfo
    subst hi
    unfold extract_etoro_asset_info at hinfo
    cases hl : (allFields row).lookup "name" with
    | none => simp [hl] at hinfo
    | some v =>
      refine ⟨v, rfl, ?_⟩
      intro hv
      subst hv
      simp [hl] at hinfo
  · intro h1 h2
    unfold extract_etoro_asset_info
    rw [allFields_lookup_name]
    cases hsel : row.selectFirst nameSel with
    | some e => simp [nameField, hsel, h1 e hsel, List.lookup_cons]
    | none =>
      cases hfb : row.selectFirst nameFallbackSel with
      | some e => simp [nameField, hsel, hfb, h2 e hfb, List.lookup_cons]
      | none => simp [nameField, hsel, hfb, List.lookup]

/-- Witness for C5: a row without name elements yields no entry. -/
theorem entry_requires_nonempty_name_witness :
    extract_etoro_asset_info noNameRow = none := by
  apply (entry_requires_nonempty_name noNameRow).2
  · intro e he
    have h0 : noNameRow.selectFirst nameSel = (none : Option Node) := rfl
    rw [h0] at he
    cases he
  · intro e he
    have h0 : noNameRow.selectFirst nameFallbackSel = (none : Option Node) := rfl
    rw [h0] at he
    cases he

/-- C6 is falsified as stated: on a row whose profit/loss element carries
both marker classes, the element carries the negative marker yet the entry's
sign classification is positive, not negative (the positive marker is checked
first). -/
theorem pl_sign_claim_counterexample :
    plElement bothMarkersRow = some bothMarkersPlElement ∧
    (Node.classList bothMarkersPlElement).contains "et-negative" = true ∧
    extract_etoro_asset_info bothMarkersRow = some bothMarkersInfo ∧
    List.lookup "profit_loss_status" bothMarkersInfo = some "positive" ∧
    ¬ List.lookup "profit_loss_status" bothMarkersInfo = some "negative" :=
  ⟨rfl, by decide, rfl, by decide, by decide⟩

/-- C6 (amended): for the extracted profit/loss element, the positive marker
class yields a positive classification; the negative marker yields a negative
classification only when the positive marker is absent; with neither marker
no status field is set. -/
theorem pl_sign_classification (row : Node) (e : Node) (info : AssetInfo)
    (he : plElement row = some e)
    (hinfo : extract_etoro_asset_info row = some info) :
    ((Node.classList e).contains "et-positive" = true →
      info.lookup "profit_loss_status" = some "positive") ∧
    ((Node.classList e).contains "et-positive" = false →
      (Node.classList e).contains "et-negative" = true →
      info.lookup "profit_loss_status" = some "negative") ∧
    ((Node.classList e).contains "et-positive" = false →
      (Node.classList e).contains "et-negative" = false →
      info.lookup "profit_loss_status" = none) := by
  have hi : info = allFields row := extract_eq_allFields row info hinfo
  subst hi
  refine ⟨fun hp => ?_, fun hp hn => ?_, fun hp hn => ?_⟩
  · rw [allFields_lookup_pl_status]
    simp [plFields, he, mem_of_containsb hp, List.lookup_cons]
  · rw [allFields_lookup_pl_status]
    simp [plFields, he, not_mem_of_containsb hp, mem_of_containsb hn, List.lookup_cons]
  · rw [allFields_lookup_pl_status]
    simp [plFields, he, not_mem_of_containsb hp, not_mem_of_containsb hn,
      List.lookup_cons, List.lookup]

/-- Witness for the amended C6: the positive-marker fixture is classified
positive. -/
theorem pl_sign_classification_witness :
    List.lookup "profit_loss_status" sampleRowInfo = some "positive" :=
  (pl_sign_classification sampleRow
    (.elem "span" [("class", "et-font-weight-normal et-positive")] [.text "5.2%"])
    sampleRowInfo rfl rfl).1 (by decide)

/-- C7 is falsified as stated: in a named three-cell row, the invested
selector does match inside the row's second data cell, yet the entry omits
`invested_percentage`, because the numeric columns are attempted only when
the row has at least four data cells. -/
theorem field_guard_counterexample :
    ((tableCells threeCellRow).getD 1 emptyNode).selectFirst fontWeightNormalSel =
      some threeCellInvestedElement ∧
    getTextStrip threeCellInvestedElement = "25%" ∧
    extract_etoro_asset_info threeCellRow = some threeCellInfo ∧
    List.lookup "invested_percentage" threeCellInfo = none :=
  ⟨rfl, rfl, rfl, rfl⟩

/-- C7 (amended): each field of an extracted entry is determined solely by
its own selector lookup, with a missing match simply omitting the field —
except that the numeric column fields are attempted only when the row has at
least four data cells, the buy/sell prices only with at least six, so those
fields are absent on shorter rows even when their selectors would match. -/
theorem field_extraction_characterization (row : Node) (info : AssetInfo)
    (hinfo : extract_etoro_asset_info row = some info) :
    (info.lookup "description" = (row.selectFirst descSel).map getTextStrip) ∧
    (4 ≤ (tableCells row).length →
      info.lookup "invested_percentage" =
        (((tableCells row).getD 1 emptyNode).selectFirst fontWeightNormalSel).map getTextStrip ∧
      info.lookup "value_percentage" =
        (((tableCells row).getD 3 emptyNode).selectFirst fontWeightNormalSel).map getTextStrip) ∧
    ((tableCells row).length < 4 →
      info.lookup "invested_percentage" = none ∧
      info.lookup "value_percentage" = none ∧
      info.lookup "profit_loss_percentage" = none ∧
      info.lookup "profit_loss_status" = none) ∧
    (6 ≤ (tableCells row).length →
      info.lookup "sell_price" =
        (((tableCells row).getD 4 emptyNode).selectFirst rateValueSel).map getTextStrip ∧
      info.lookup "buy_price" =
        (((tableCells row).getD 5 emptyNode).selectFirst rateValueSel).map getTextStrip) ∧
    ((tableCells row).length < 6 →
      info.lookup "sell_price" = none ∧ info.lookup "buy_price" = none) ∧
    (info.lookup "direction" = (directionField row).lookup "direction") ∧
    (info.lookup "avatar_url" = (avatarFields row).lookup "avatar_url") ∧
    (info.lookup "alt_text" = (avatarFields row).lookup "alt_text") := by
  have hi : info = allFields row := extract_eq_allFields row info hinfo
  subst hi
  refine ⟨?_, fun h4 => ⟨?_, ?_⟩, fun hlt => ⟨?_, ?_, ?_, ?_⟩, fun h6 => ⟨?_, ?_⟩,
    fun hlt6 => ⟨?_, ?_⟩, ?_, ?_, ?_⟩
  · rw [allFields_lookup_description, descriptionField_lookup]
  · rw [allFields_lookup_invested, investedField_lookup_of_ge row h4]
  · rw [allFields_lookup_value, valueField_lookup_of_ge row h4]
  · rw [allFields_lookup_invested, investedField_lookup_of_lt row hlt]
  · rw [allFields_lookup_value, valueField_lookup_of_lt row hlt]
  · rw [allFields_lookup_pl_percentage]
    simp [plFields, plElement_of_lt row hlt, List.lookup]
  · rw [allFields_lookup_pl_status]
    simp [plFields, plElement_of_lt row hlt, List.lookup]
  · rw [allFields_lookup_sell, sellPriceField_lookup_of_ge row h6]
  · rw [allFields_lookup_buy, buyPriceField_lookup_of_ge row h6]
  · rw [allFields_lookup_sell, sellPriceField_lookup_of_lt row hlt6]
  · rw [allFields_lookup_buy, buyPriceField_lookup_of_lt row hlt6]
  · exact allFields_lookup_direction row
  · exact allFields_lookup_avatar row
  · exact allFields_lookup_alt row

/-- Witness for the amended C7: the characterization applied to the
four-cell sample row. -/
theorem field_extraction_characterization_witness :
    List.lookup "description" sampleRowInfo =
      (sampleRow.selectFirst descSel).map getTextStrip ∧
    List.lookup "invested_percentage" sampleRowInfo =
      (((tableCells sampleRow).getD 1 emptyNode).selectFirst fontWeightNormalSel).map
        getTextStrip := by
  have h := field_extraction_characterization sampleRow sampleRowInfo rfl
  exact ⟨h.1, (h.2.1 (by decide)).1⟩

/-- C8: for every username, the built profile URL is exactly the configured
base domain, the fixed `/people/` path, and then the username verbatim:
the URL determines the username and nothing else about it varies. -/
theorem profile_url_spec :
    (∀ username : String,
      get_profile_url username = "https://www.etoro.com/people/" ++ username) ∧
    (∀ username : String,
      (get_profile_url username).data.drop "https://www.etoro.com/people/".data.length =
        username.data) ∧
    (∀ u v : String, get_profile_url u = get_profile_url v → u = v) := by
  have hdata : ∀ username : String,
      (get_profile_url username).data =
        "https://www.etoro.com/people/".data ++ username.data := by
    intro username
    show (etoro_base_url ++ "/people/" ++ username).data = _
    rw [String.data_append]
    congr 1
  refine ⟨fun username => ?_, fun username => ?_, fun u v h => ?_⟩
  · exact String.ext ((hdata username).trans (String.data_append _ _).symm)
  · rw [hdata username]
    exact List.drop_left _ _
  · have h2 := ((hdata u).symm.trans (congrArg String.data h)).trans (hdata v)
    exact String.ext (List.append_cancel_left h2)

/-- Witness for C8: the URL built for a concrete username. -/
theorem profile_url_spec_witness :
    get_profile_url "bob" = "https://www.etoro.com/people/bob" := by
  have h := profile_url_spec.1 "bob"
  exact h.trans (by decide)

/-- The binary-location loop returns the first location that both exists and
starts successfully. -/
theorem tryChromePaths_eq_find (env : ChromeEnv) (ps : List String) :
    tryChromePaths env ps = ps.find? (fun p => env.pathExists p && env.binaryWorks p) := by
  induction ps with
  | nil => rfl
  | cons p rest ih =>
    simp only [tryChromePaths, List.find?_cons]
    cases he : env.pathExists p <;> cases hb : env.binaryWorks p <;> simp [he, hb, ih]

/-- C9: browser setup is the ordered chain primary attempt, the five binary
locations in source order, then the minimal configuration; the first
successful attempt is returned, and the fatal browser-unavailable error is
raised exactly when every attempt fails. -/
theorem setup_driver_first_success (env : ChromeEnv) :
    (setup_driver env =
      match orderedAttempts.find? (attemptSucceeds env) with
      | some a => Except.ok a
      | none => Except.error ()) ∧
    (setup_driver env = Except.error () ↔
      ∀ a ∈ orderedAttempts, attemptSucceeds env a = false) := by
  have hmap : (chrome_paths.map DriverSetup.binaryAt).find? (attemptSucceeds env) =
      (tryChromePaths env chrome_paths).map DriverSetup.binaryAt := by
    rw [List.find?_map, tryChromePaths_eq_find]
    rfl
  have hps : attemptSucceeds env DriverSetup.primary = env.primaryWorks := rfl
  have hms : attemptSucceeds env DriverSetup.minimal = env.minimalWorks := rfl
  have hmain : setup_driver env =
      match orderedAttempts.find? (attemptSucceeds env) with
      | some a => Except.ok a
      | none => Except.error () := by
    cases hp : env.primaryWorks <;> cases hc : tryChromePaths env chrome_paths <;>
      cases hm : env.minimalWorks <;>
        simp [setup_driver, orderedAttempts, List.find?_cons, List.find?_append,
          hmap, hps, hms, hp, hc, hm, Option.or, Option.none_or]
  refine ⟨hmain, ?_⟩
  rw [hmain]
  cases hfind : orderedAttempts.find? (attemptSucceeds env) with
  | none =>
    constructor
    · intro _ a ha
      have := List.find?_eq_none.mp hfind a ha
      simpa using this
    · intro _; rfl
  | some a =>
    constructor
    · intro hcontra; exact absurd hcontra (by simp)
    · intro hall
      have hmem := List.mem_of_find?_eq_some hfind
      have hsucc := List.find?_some hfind
      rw [hall _ hmem] at hsucc
      cases hsucc

/-- Witness for C9: in an environment where only the `/usr/bin/chromium`
attempt succeeds, setup returns exactly that attempt. -/
theorem setup_driver_first_success_witness :
    setup_driver sampleChromeEnv = Except.ok (DriverSetup.binaryAt "/usr/bin/chromium") := by
  have h := (setup_driver_first_success sampleChromeEnv).1
  rw [h]
  rfl

/-- C10: with a live session, `get_portfolio_data` returns normally for every
username and every outcome of the modelled driver interactions — navigation,
waiting, challenge/tab handling and extraction faults are all absorbed into
`none` or a record — while the missing-session check is the only raising
path. -/
theorem session_never_raises :
    (∀ (d : DriverState) (username : String),
      ∃ r, get_portfolio_data (some d) username = Except.ok r) ∧
    (∀ username : String,
      get_portfolio_data none username = Except.error ScrapeError.notInitialized) := by
  constructor
  · intro d username
    cases hn : d.navFails <;> cases hw : d.waitTimesOut <;> cases hp : d.pageSourceFails <;>
      cases hm : hasPrivacyMarker d.pageSource <;>
        simp [get_portfolio_data, hn, hw, hp, hm]
  · intro username; rfl

end EToro
